import Mathlib

/-!
# A shallow embedding of Bin2Obj (`src/Main.cpp`)

Bin2Obj reads a raw binary file, decodes a sequence of vertices and a
sequence of faces according to command-line configuration, and writes a
Wavefront OBJ text file.  This file embeds the extraction pipeline of
`main` (`src/Main.cpp`) and proves properties of it.

Modelling conventions:
* The input stream is a `List Nat` of bytes together with a cursor
  position (`ftell`).  `fseek` on a regular file succeeds even past the
  end of the file, so seeks are modelled as plain cursor updates; a seek
  with a negative `long` offset that would land before position 0 fails
  (this is the only way the stride seeks in `Main.cpp` can fail).
* `unsigned long` is 64-bit (LP64) and `unsigned int` is 32-bit; their
  wrap-around arithmetic is written with explicit `% 2 ^ 64` / `% 2 ^ 32`.
* `float` values are embedded as `FVal`: NaN, signed infinity, or an
  exact rational.  No claim in this development inspects the rounding of
  a finite `float` product, so finite multiplication is exact here.
* `fread` consumes `max pos (min (pos + n) len) - pos` bytes; it succeeds
  iff `pos + n ≤ len`.  After a failed whole-struct `fread` the C object
  is indeterminate; here it keeps its zero-initialized value.
* Diagnostic `printf` output and the fatal-abort paths (`fopen` failure)
  are not modelled; the pipeline functions return the data the program
  accumulates in `env.meshVertices` / `env.meshFaces`.
-/

/-- An IEEE-754 single value, abstracted: NaN, an infinity (`true` =
negative), or an exact finite rational. -/
inductive FVal where
  | nan : FVal
  | inf : Bool → FVal
  | fin : ℚ → FVal
  deriving DecidableEq, Repr

/-- `std::isnan` (`Main.cpp` line 202). -/
def isnanF : FVal → Bool
  | .nan => true
  | _ => false

/-- IEEE-754 multiplication on the abstraction: NaN propagates,
`0 × ∞ = NaN`, signs of infinities combine; finite products are kept
exact (no claim depends on rounding or overflow). -/
def mulF : FVal → FVal → FVal
  | .nan, _ => .nan
  | _, .nan => .nan
  | .inf s, .inf t => .inf (xor s t)
  | .inf s, .fin q => if q = 0 then .nan else .inf (xor s (decide (q < 0)))
  | .fin q, .inf s => if q = 0 then .nan else .inf (xor s (decide (q < 0)))
  | .fin a, .fin b => .fin (a * b)

/-- `struct Vertex` (`Main.cpp` line 31): three `float` coordinates,
zero-initialized. -/
structure Vertex where
  x : FVal := .fin 0
  y : FVal := .fin 0
  z : FVal := .fin 0
  deriving DecidableEq, Repr

/-- `struct Face` (`Main.cpp` line 37): four `unsigned int` indices,
zero-initialized (`w` unused for triangles). -/
structure Face where
  x : Nat := 0
  y : Nat := 0
  z : Nat := 0
  w : Nat := 0
  deriving DecidableEq, Repr

/-- `Environment::VertexType` (`Main.cpp` line 49). -/
inductive VertexType where
  | F32 : VertexType
  | I16 : VertexType
  deriving DecidableEq, Repr

/-- `Environment::FaceType` (`Main.cpp` line 57). -/
inductive FaceType where
  | I16 : FaceType
  | I32 : FaceType
  deriving DecidableEq, Repr

/-- The extraction-relevant fields of `struct Environment`
(`Main.cpp` line 41), with the same defaults. -/
structure Config where
  startOffset : Nat := 0
  stride : Nat := 0
  endOffset : Nat := 0
  scale : FVal := .fin 1
  vertexType : VertexType := .F32
  faceStartOffset : Nat := 0
  faceEndOffset : Nat := 0
  faceStride : Nat := 0
  faceType : FaceType := .I32
  faceQuad : Bool := false
  deriving Repr

/-- Byte `i` of the stream (bytes past the end read as zero padding; a
successful read never touches them). -/
def byteAt (s : List Nat) (i : Nat) : Nat := s.getD i 0

/-- Little-endian 16-bit unsigned decode at `pos`. -/
def readU16 (s : List Nat) (pos : Nat) : Nat :=
  byteAt s pos + 256 * byteAt s (pos + 1)

/-- Little-endian 32-bit unsigned decode at `pos`. -/
def readU32 (s : List Nat) (pos : Nat) : Nat :=
  byteAt s pos + 256 * byteAt s (pos + 1) +
    65536 * byteAt s (pos + 2) + 16777216 * byteAt s (pos + 3)

/-- Reinterpret a 16-bit unsigned value as `int16_t`. -/
def toInt16 (u : Nat) : Int :=
  if u < 32768 then (u : Int) else (u : Int) - 65536

/-- Decode a 32-bit pattern as an IEEE-754 single. -/
def decodeF32 (u : Nat) : FVal :=
  let sign : Bool := decide (2 ^ 31 ≤ u % 2 ^ 32)
  let ex : ℕ := u / 2 ^ 23 % 256
  let man : ℕ := u % 2 ^ 23
  let sgn : ℚ := if sign then -1 else 1
  if ex = 255 then
    if man = 0 then .inf sign else .nan
  else if ex = 0 then
    .fin (sgn * (man : ℚ) / 2 ^ 149)
  else
    .fin (sgn * ((2 ^ 23 + man : ℕ) : ℚ) * 2 ^ ex / 2 ^ 150)

/-- Cursor position after an `fread` of `n` bytes starting at `pos` in a
stream of length `len`: all requested bytes when available, otherwise
everything up to end-of-file (nothing when already past it). -/
def advancePos (len pos n : Nat) : Nat := max pos (min (pos + n) len)

/-- `fseek(file, (long) stride, SEEK_CUR)` followed by the source's
`stride > 0 && r != 0` break check: a stride below `2 ^ 63` is a forward
seek that always succeeds on a regular file; a larger stride is cast to
a negative `long` and fails (`none`) when it would land before 0. -/
def strideSeek (pos stride : Nat) : Option Nat :=
  if stride < 2 ^ 63 then some (pos + stride)
  else if 2 ^ 64 - stride ≤ pos then some (pos - (2 ^ 64 - stride)) else none

/-- `unsigned long` subtraction (64-bit wrap-around), as in
`env.faceEndOffset - env.faceStartOffset` (`Main.cpp` line 221). -/
def ulongSub (a b : Nat) : Nat :=
  (a % 2 ^ 64 + (2 ^ 64 - b % 2 ^ 64)) % 2 ^ 64

/-- Size in bytes of one vertex record: `sizeof(Vertex)` = 12 for the
float path, `3 * sizeof(int16_t)` = 6 for the int16 path. -/
def vertexRecordSize : VertexType → Nat
  | .F32 => 12
  | .I16 => 6

/-- One vertex record decode (`Main.cpp` lines 174-194): `none` on a
short read.  The int16 path reads `coords[0..2]` in stream order and
assigns `v.x = coords[0]`, `v.z = coords[2]`, `v.y = coords[1]`
(assignment order as in the source; no axis swap). -/
def readVertexRecord (vt : VertexType) (s : List Nat) (pos : Nat) :
    Option (Vertex × Nat) :=
  match vt with
  | .F32 =>
      if pos + 12 ≤ s.length then
        some ({ x := decodeF32 (readU32 s pos)
                y := decodeF32 (readU32 s (pos + 4))
                z := decodeF32 (readU32 s (pos + 8)) }, pos + 12)
      else none
  | .I16 =>
      if pos + 6 ≤ s.length then
        let c0 := toInt16 (readU16 s pos)
        let c1 := toInt16 (readU16 s (pos + 2))
        let c2 := toInt16 (readU16 s (pos + 4))
        some ({ x := .fin (c0 : ℚ), z := .fin (c2 : ℚ), y := .fin (c1 : ℚ) },
          pos + 6)
      else none

/-- `v *= env.scale` (`Main.cpp` line 201 via the `operator*=` on
line 34). -/
def scaleVertex (sc : FVal) (v : Vertex) : Vertex :=
  { x := mulF v.x sc, y := mulF v.y sc, z := mulF v.z sc }

/-- The NaN sanitize step (`Main.cpp` lines 202-208): when any component
is NaN, each NaN component is set to `0.0`; otherwise the vertex is
untouched. -/
def sanitizeVertex (v : Vertex) : Vertex :=
  if isnanF v.x || isnanF v.y || isnanF v.z then
    { x := if isnanF v.x then .fin 0 else v.x
      y := if isnanF v.y then .fin 0 else v.y
      z := if isnanF v.z then .fin 0 else v.z }
  else v

/-- The vertex read loop (`Main.cpp` lines 171-218), fuel-indexed.  An
iteration: decode one record (diagnostic + break on a short read), scale,
sanitize, append; break when `endOffset` is configured and reached; then
the stride seek. -/
def vertexLoop (cfg : Config) (s : List Nat) : Nat → Nat → List Vertex
  | 0, _ => []
  | Nat.succ fuel, pos =>
    match readVertexRecord cfg.vertexType s pos with
    | none => []
    | some (v, pos') =>
      let v := sanitizeVertex (scaleVertex cfg.scale v)
      v :: (if 0 < cfg.endOffset ∧ cfg.endOffset ≤ pos' then []
            else
              match strideSeek pos' cfg.stride with
              | none => []
              | some p => vertexLoop cfg s fuel p)

/-- Vertex extraction: seek to `startOffset`, then run the loop.  Each
iteration consumes at least 6 bytes, so `s.length + 1` fuel is never
exhausted before a read fails. -/
def vertexExtract (cfg : Config) (s : List Nat) : List Vertex :=
  vertexLoop cfg s (s.length + 1) cfg.startOffset

/-- `varSize` (`Main.cpp` lines 226-234): bytes per face index. -/
def faceVarSize : FaceType → Nat
  | .I32 => 4
  | .I16 => 2

/-- Number of indices per face: 4 for quads, otherwise 3
(`env.faceQuad ? 4 : 3`). -/
def faceArity (quad : Bool) : Nat := if quad then 4 else 3

/-- `faceBytes` (`Main.cpp` line 221): `unsigned long` subtraction of the
two face offsets, wrapping modulo `2 ^ 64`. -/
def faceBytesOf (cfg : Config) : Nat :=
  ulongSub cfg.faceEndOffset cfg.faceStartOffset

/-- `numFaces` (`Main.cpp` line 237): `faceBytes / (varSize * arity)`
truncated into an `unsigned int`. -/
def numFacesOf (cfg : Config) : Nat :=
  faceBytesOf cfg / (faceVarSize cfg.faceType * faceArity cfg.faceQuad) % 2 ^ 32

/-- One element `fread` of `width` bytes at `pos`: the value (`none` on a
short read) and the new cursor position. -/
def readElem (s : List Nat) (pos width : Nat) : Option Nat × Nat :=
  (if pos + width ≤ s.length then
      some (if width = 2 then readU16 s pos else readU32 s pos)
    else none,
   advancePos s.length pos width)

/-- One face record decode (`Main.cpp` lines 245-302), returning the face
and the new cursor position.  Mirrors the source's control flow:
* 32-bit quad: a single whole-struct `fread`; on a short read the face
  keeps its zero-initialized value (the C object is indeterminate) and
  the loop proceeds to validation regardless;
* 32-bit triangle and both 16-bit shapes: element-by-element reads, where
  the first short read stops decoding the record (`break` out of the
  `switch`), leaving the remaining elements zero, and the partially
  populated face still proceeds to validation. -/
def decodeFaceRecord (ft : FaceType) (quad : Bool) (s : List Nat)
    (pos : Nat) : Face × Nat :=
  match ft with
  | .I32 =>
    if quad then
      if pos + 16 ≤ s.length then
        ({ x := readU32 s pos, y := readU32 s (pos + 4)
           z := readU32 s (pos + 8), w := readU32 s (pos + 12) }, pos + 16)
      else ({}, advancePos s.length pos 16)
    else
      match readElem s pos 4 with
      | (none, p) => ({}, p)
      | (some xv, p1) =>
        match readElem s p1 4 with
        | (none, p) => ({ x := xv }, p)
        | (some yv, p2) =>
          match readElem s p2 4 with
          | (none, p) => ({ x := xv, y := yv }, p)
          | (some zv, p3) => ({ x := xv, y := yv, z := zv }, p3)
  | .I16 =>
    match readElem s pos 2 with
    | (none, p) => ({}, p)
    | (some xv, p1) =>
      match readElem s p1 2 with
      | (none, p) => ({ x := xv }, p)
      | (some yv, p2) =>
        match readElem s p2 2 with
        | (none, p) => ({ x := xv, y := yv }, p)
        | (some zv, p3) =>
          if quad then
            match readElem s p3 2 with
            | (none, p) => ({ x := xv, y := yv, z := zv }, p)
            | (some wv, p4) => ({ x := xv, y := yv, z := zv, w := wv }, p4)
          else ({ x := xv, y := yv, z := zv }, p3)

/-- Triangle index validation (`Main.cpp` lines 329-345): when any of
`x`, `y`, `z` is `≥` the vertex count, each out-of-range one among them
is clamped to 0. -/
def validateTri (n : Nat) (f : Face) : Face :=
  if n ≤ f.x || n ≤ f.y || n ≤ f.z then
    { x := if n ≤ f.x then 0 else f.x
      y := if n ≤ f.y then 0 else f.y
      z := if n ≤ f.z then 0 else f.z
      w := f.w }
  else f

/-- Quad index validation (`Main.cpp` lines 304-326).  The guard on
line 321 tests `f.z` (already clamped at that point) rather than `f.w`
before zeroing `w`, exactly as in the source. -/
def validateQuad (n : Nat) (f : Face) : Face :=
  if n ≤ f.x || n ≤ f.y || n ≤ f.z || n ≤ f.w then
    let fx := if n ≤ f.x then 0 else f.x
    let fy := if n ≤ f.y then 0 else f.y
    let fz := if n ≤ f.z then 0 else f.z
    let fw := if n ≤ fz then 0 else f.w
    { x := fx, y := fy, z := fz, w := fw }
  else f

/-- Validation dispatch on the quad flag (`Main.cpp` line 304). -/
def validateFace (quad : Bool) (n : Nat) (f : Face) : Face :=
  if quad then validateQuad n f else validateTri n f

/-- The face read loop body (`Main.cpp` lines 239-352), indexed by the
remaining iteration count of `for (i = 0; i < numFaces; ++i)`.  Each
iteration: stop when the cursor has strictly passed `faceEndOffset`
(line 242 uses `>`); decode one record; validate; append; face stride
seek (stop on its failure). -/
def faceLoop (cfg : Config) (s : List Nat) (n : Nat) :
    Nat → Nat → List Face
  | 0, _ => []
  | Nat.succ rem, pos =>
    if cfg.faceEndOffset < pos then []
    else
      let d := decodeFaceRecord cfg.faceType cfg.faceQuad s pos
      validateFace cfg.faceQuad n d.1 ::
        (match strideSeek d.2 cfg.faceStride with
         | none => []
         | some p => faceLoop cfg s n rem p)

/-- Face extraction proper: seek to `faceStartOffset`, then run the loop
for up to `numFaces` iterations, validating against the vertex count
`n`. -/
def faceExtract (cfg : Config) (s : List Nat) (n : Nat) : List Face :=
  faceLoop cfg s n (numFacesOf cfg) cfg.faceStartOffset

/-- Whether the whole face phase is skipped: the `if (faceBytes > 0)`
guard on `Main.cpp` line 222 (`faceBytes` is unsigned, so this is
`faceBytes ≠ 0`). -/
def faceSkipped (cfg : Config) : Bool := faceBytesOf cfg == 0

/-- The face phase of `main`: nothing when skipped, otherwise the
extraction loop (`Main.cpp` lines 221-354). -/
def facePhase (cfg : Config) (s : List Nat) (n : Nat) : List Face :=
  if faceSkipped cfg then [] else faceExtract cfg s n

/-- The indices of a face enumerated as the writer's
`(unsigned int *) &face` array of `numFaceElements` entries
(`Main.cpp` lines 363-365). -/
def faceElems (quad : Bool) (f : Face) : List Nat :=
  if quad then [f.x, f.y, f.z, f.w] else [f.x, f.y, f.z]

/-- The writer's degenerate-face test (`Main.cpp` lines 366-376): some
two positions `i ≠ j` among the `arity` elements hold equal indices. -/
def isDegenerate (quad : Bool) (f : Face) : Bool :=
  decide (∃ i : Fin (faceElems quad f).length,
    ∃ j : Fin (faceElems quad f).length,
      i ≠ j ∧ (faceElems quad f).get i = (faceElems quad f).get j)

/-- The faces that receive an `f` line (`Main.cpp` lines 364-385):
degenerate faces are skipped via `continue`. -/
def writtenFaces (quad : Bool) (faces : List Face) : List Face :=
  faces.filter (fun f => !isDegenerate quad f)

/-- The index values printed on one `f` line (`Main.cpp` lines 381-384):
each element plus one, in `unsigned int` arithmetic. -/
def emitTokens (quad : Bool) (f : Face) : List Nat :=
  (faceElems quad f).map (fun v => (v + 1) % 2 ^ 32)

/-- The `f` lines of the output file, as token lists in order. -/
def faceLines (quad : Bool) (faces : List Face) : List (List Nat) :=
  (writtenFaces quad faces).map (emitTokens quad)

/-- The whole pipeline of `main`: vertex extraction, then the face phase
validated against the loaded vertex count, then the writer's filter.
Returns (vertices, decoded faces, written faces). -/
def runPipeline (cfg : Config) (s : List Nat) :
    List Vertex × List Face × List Face :=
  let vs := vertexExtract cfg s
  let fs := facePhase cfg s vs.length
  (vs, fs, writtenFaces cfg.faceQuad fs)

/-- The number of iterations of the face loop that pass the position
guard and reach the decode (each such iteration appends exactly one
face). -/
def faceIterCount (cfg : Config) (s : List Nat) : Nat → Nat → Nat
  | 0, _ => 0
  | Nat.succ rem, pos =>
    if cfg.faceEndOffset < pos then 0
    else
      1 + (match strideSeek (decodeFaceRecord cfg.faceType cfg.faceQuad s pos).2
              cfg.faceStride with
           | none => 0
           | some p => faceIterCount cfg s rem p)

/-- Two int16 vertices followed by one 16-bit quad face record
`(0, 1, 1, 5)`. -/
def cfgQuadW : Config :=
  { vertexType := .I16, endOffset := 12, faceStartOffset := 12
    faceEndOffset := 20, faceType := .I16, faceQuad := true }

/-- Stream for `cfgQuadW`: 12 vertex bytes, then `0,1,1,5` as
little-endian uint16. -/
def streamQuadW : List Nat :=
  [0, 0, 0, 0, 0, 0, 0, 0, 0, 0, 0, 0, 0, 0, 1, 0, 1, 0, 5, 0]

/-- Wrap-around configuration: `faceEndOffset < faceStartOffset`. -/
def cfgWrap : Config := { faceStartOffset := 10, faceEndOffset := 4 }

/-- Stride configuration whose second iteration starts exactly at
`faceEndOffset`: 16-bit triangles of 6 bytes, stride 6, range
`[0, 12)`. -/
def cfgStride : Config :=
  { faceStartOffset := 0, faceEndOffset := 12, faceStride := 6
    faceType := .I16 }

/-- Stream for `cfgStride`: record `(1,2,3)`, 6 stride bytes, record
`(4,5,6)`. -/
def streamStride : List Nat :=
  [1, 0, 2, 0, 3, 0, 9, 9, 9, 9, 9, 9, 4, 0, 5, 0, 6, 0]

/-- Two int16 vertices followed by one 16-bit triangle face record
`(5, 1, 0)` whose `x` index is out of range. -/
def cfgClamp2 : Config :=
  { vertexType := .I16, endOffset := 12, faceStartOffset := 12
    faceEndOffset := 18, faceType := .I16 }

/-- Stream for `cfgClamp2`. -/
def streamClamp2 : List Nat :=
  [0, 0, 0, 0, 0, 0, 0, 0, 0, 0, 0, 0, 5, 0, 1, 0, 0, 0]

/-- Three int16 vertices followed by one 16-bit triangle face record
`(5, 1, 2)` whose `x` index is out of range. -/
def cfgClamp3 : Config :=
  { vertexType := .I16, endOffset := 18, faceStartOffset := 18
    faceEndOffset := 24, faceType := .I16 }

/-- Stream for `cfgClamp3`. -/
def streamClamp3 : List Nat :=
  [0, 0, 0, 0, 0, 0, 0, 0, 0, 0, 0, 0, 0, 0, 0, 0, 0, 0,
   5, 0, 1, 0, 2, 0]

/-- A quad face whose dangling `w` is the largest `unsigned int`. -/
def faceWrapTok : Face := { x := 0, y := 1, z := 2, w := 4294967295 }

theorem faceElems_length (quad : Bool) (f : Face) :
    (faceElems quad f).length = faceArity quad := by
  cases quad <;> rfl

/-- C5: a face with two equal indices at different positions among its
`arity` elements (a degenerate face) never receives an `f` line in the
output, and the number of written faces never exceeds the number of
decoded faces. -/
theorem c5_degenerate_face_never_written (quad : Bool) (faces : List Face)
    (f : Face) (i j : Nat) (hij : i ≠ j) (hi : i < faceArity quad)
    (hj : j < faceArity quad)
    (heq : (faceElems quad f).getD i 0 = (faceElems quad f).getD j 0) :
    f ∉ writtenFaces quad faces ∧
      (writtenFaces quad faces).length ≤ faces.length := by
  have hi' : i < (faceElems quad f).length := by
    rw [faceElems_length]; exact hi
  have hj' : j < (faceElems quad f).length := by
    rw [faceElems_length]; exact hj
  have hdeg : isDegenerate quad f = true := by
    apply decide_eq_true
    refine ⟨⟨i, hi'⟩, ⟨j, hj'⟩, Fin.ne_of_val_ne hij, ?_⟩
    simp only [List.get_eq_getElem]
    rw [← List.getD_eq_getElem _ 0 hi', ← List.getD_eq_getElem _ 0 hj']
    exact heq
  refine ⟨?_, List.length_filter_le _ _⟩
  intro hmem
  have h2 := (List.mem_filter.mp hmem).2
  simp [hdeg] at h2

theorem c5_degenerate_face_never_written_witness :
    ({ x := 0, y := 0, z := 1, w := 0 } : Face) ∉
        writtenFaces false [{ x := 0, y := 0, z := 1, w := 0 }] ∧
      (writtenFaces false [{ x := 0, y := 0, z := 1, w := 0 }]).length ≤
        ([{ x := 0, y := 0, z := 1, w := 0 }] : List Face).length :=
  c5_degenerate_face_never_written false _ _ 0 1 (by decide) (by decide)
    (by decide) (by decide)

/-- C6: the sanitize step replaces exactly the NaN components of a
(scaled) vertex with 0.0 and leaves every other component unchanged. -/
theorem c6_sanitize_replaces_exactly_nan (v : Vertex) :
    (sanitizeVertex v).x = (if isnanF v.x then FVal.fin 0 else v.x) ∧
    (sanitizeVertex v).y = (if isnanF v.y then FVal.fin 0 else v.y) ∧
    (sanitizeVertex v).z = (if isnanF v.z then FVal.fin 0 else v.z) := by
  rcases v with ⟨x, y, z⟩
  by_cases hx : isnanF x <;> by_cases hy : isnanF y <;>
    by_cases hz : isnanF z <;> simp [sanitizeVertex, hx, hy, hz]

/-- C7: the int16 vertex decode reads three signed 16-bit values in
stream order and assigns them without any axis swap: `x` is the value at
`pos`, `y` the one at `pos + 2`, `z` the one at `pos + 4`, each converted
to floating point. -/
theorem c7_i16_decode_no_swap (s : List Nat) (pos : Nat)
    (h : pos + 6 ≤ s.length) :
    readVertexRecord .I16 s pos =
      some ({ x := .fin ((toInt16 (readU16 s pos) : ℚ))
              y := .fin ((toInt16 (readU16 s (pos + 2)) : ℚ))
              z := .fin ((toInt16 (readU16 s (pos + 4)) : ℚ)) }, pos + 6) := by
  simp [readVertexRecord, h]

theorem c7_i16_decode_no_swap_witness :
    readVertexRecord .I16 [1, 0, 254, 255, 3, 0] 0 =
      some ({ x := .fin 1, y := .fin (-2), z := .fin 3 }, 6) := by
  rw [c7_i16_decode_no_swap [1, 0, 254, 255, 3, 0] 0 (by decide)]
  norm_num [readU16, byteAt, toInt16]

/-- C9: on an input stream shorter than one vertex record (under either
encoding) the vertex extractor returns the empty sequence; the short
read terminates the loop normally. -/
theorem c9_short_stream_empty_vertices (cfg : Config) (s : List Nat)
    (h : s.length < vertexRecordSize cfg.vertexType) :
    vertexExtract cfg s = [] := by
  unfold vertexExtract
  cases hvt : cfg.vertexType with
  | F32 =>
    rw [hvt] at h
    simp only [vertexRecordSize] at h
    have hc : ¬ (cfg.startOffset + 12 ≤ s.length) := by omega
    simp [vertexLoop, readVertexRecord, hvt, hc]
  | I16 =>
    rw [hvt] at h
    simp only [vertexRecordSize] at h
    have hc : ¬ (cfg.startOffset + 6 ≤ s.length) := by omega
    simp [vertexLoop, readVertexRecord, hvt, hc]

theorem c9_short_stream_empty_vertices_witness :
    vertexExtract { } [0, 0, 0] = [] :=
  c9_short_stream_empty_vertices { } [0, 0, 0] (by decide)

theorem advancePos_of_le (len pos n : Nat) (h : pos + n ≤ len) :
    advancePos len pos n = pos + n := by
  unfold advancePos
  omega

theorem ulongSub_self (a : Nat) : ulongSub a a = 0 := by
  have h64 : (2 : Nat) ^ 64 = 18446744073709551616 := by norm_num
  unfold ulongSub
  rw [h64]
  omega

/-- C1 (code bug exhibit): a 16-bit quad record `(0, 1, 1, 5)` decoded
with 2 loaded vertices keeps `w = 5` after validation, because the
source re-tests `f.z` instead of `f.w` before clamping `w`; the fourth
index is left `≥` the vertex count. -/
theorem c1_quad_w_left_dangling :
    (runPipeline cfgQuadW streamQuadW).1.length = 2 ∧
    (runPipeline cfgQuadW streamQuadW).2.1 =
      [{ x := 0, y := 1, z := 1, w := 5 }] ∧
    ¬ (({ x := 0, y := 1, z := 1, w := 5 } : Face).w <
        (runPipeline cfgQuadW streamQuadW).1.length) := by decide

/-- C2 (counterexample): with `faceEndOffset = 4 < 10 = faceStartOffset`
the unsigned byte count wraps around, so the face phase is *not* skipped
even though `faceEndOffset ≤ faceStartOffset`. -/
theorem c2_counterexample_not_skipped :
    cfgWrap.faceEndOffset ≤ cfgWrap.faceStartOffset ∧
      faceSkipped cfgWrap = false := by decide

/-- C2 (amended): whenever `faceEndOffset ≤ faceStartOffset` zero faces
are extracted — by the skip guard when the offsets are equal, and by the
first-iteration position guard when the subtraction wraps around. -/
theorem c2_amended_zero_faces (cfg : Config) (s : List Nat) (n : Nat)
    (h : cfg.faceEndOffset ≤ cfg.faceStartOffset) :
    facePhase cfg s n = [] ∧
      (cfg.faceEndOffset = cfg.faceStartOffset → faceSkipped cfg = true) := by
  constructor
  · by_cases hsk : faceSkipped cfg = true
    · simp [facePhase, hsk]
    · have hne : faceBytesOf cfg ≠ 0 := by
        simpa [faceSkipped] using hsk
      have hlt : cfg.faceEndOffset < cfg.faceStartOffset := by
        cases Nat.eq_or_lt_of_le h with
        | inl heq =>
          exact absurd (by rw [faceBytesOf, heq, ulongSub_self]) hne
        | inr hlt => exact hlt
      rw [facePhase, if_neg hsk]
      unfold faceExtract
      cases hnum : numFacesOf cfg with
      | zero => rfl
      | succ m => simp [faceLoop, hlt]
  · intro heq
    simp [faceSkipped, faceBytesOf, heq, ulongSub_self]

theorem c2_amended_zero_faces_witness :
    facePhase cfgWrap [] 0 = [] ∧
      (cfgWrap.faceEndOffset = cfgWrap.faceStartOffset →
        faceSkipped cfgWrap = true) :=
  c2_amended_zero_faces cfgWrap [] 0 (by decide)

/-- C3 (counterexample): under `cfgStride` the second iteration starts
at cursor position 12, exactly `faceEndOffset`; the loop does not stop
there but decodes a further record, so the full run yields two faces. -/
theorem c3_counterexample_decode_at_end_offset :
    cfgStride.faceEndOffset = 12 ∧
    faceLoop cfgStride streamStride 7 1 12 =
      [{ x := 4, y := 5, z := 6, w := 0 }] ∧
    faceExtract cfgStride streamStride 7 =
      [{ x := 1, y := 2, z := 3, w := 0 },
       { x := 4, y := 5, z := 6, w := 0 }] := by decide

/-- C3 (amended): an iteration of the face loop stops before decoding
exactly when the cursor position strictly exceeds `faceEndOffset`; at a
position equal to `faceEndOffset` another record is still decoded. -/
theorem c3_amended_guard_is_strict (cfg : Config) (s : List Nat)
    (n rem pos : Nat) :
    faceLoop cfg s n (rem + 1) pos = [] ↔ cfg.faceEndOffset < pos := by
  by_cases hp : cfg.faceEndOffset < pos
  · simp [faceLoop, hp]
  · simp [faceLoop, hp]

/-- C4 (counterexample): with 2 vertices and a decoded triangle
`(5, 1, 0)`, the out-of-range index 5 is clamped to 0 as claimed — but
the resulting face `(0, 1, 0)` is degenerate, so no `f` line at all is
written; no emitted index 1 for it appears in the output file. -/
theorem c4_counterexample_clamped_face_dropped :
    (runPipeline cfgClamp2 streamClamp2).1.length = 2 ∧
    (runPipeline cfgClamp2 streamClamp2).2.1 =
      [{ x := 0, y := 1, z := 0, w := 0 }] ∧
    faceLines cfgClamp2.faceQuad (runPipeline cfgClamp2 streamClamp2).2.1 =
      [] := by decide

/-- C4 (amended): the out-of-range index is clamped to 0, but with only
2 vertices every validated triangle is degenerate and dropped; with 3
vertices and record `(5, 1, 2)` the clamped face `(0, 1, 2)` is written
and the clamped index is emitted as 1. -/
theorem c4_amended_clamp_then_drop_or_emit_one :
    ((runPipeline cfgClamp2 streamClamp2).2.1 =
        [{ x := 0, y := 1, z := 0, w := 0 }] ∧
      faceLines cfgClamp2.faceQuad
        (runPipeline cfgClamp2 streamClamp2).2.1 = []) ∧
    ((runPipeline cfgClamp3 streamClamp3).1.length = 3 ∧
      (runPipeline cfgClamp3 streamClamp3).2.1 =
        [{ x := 0, y := 1, z := 2, w := 0 }] ∧
      faceLines cfgClamp3.faceQuad
        (runPipeline cfgClamp3 streamClamp3).2.1 = [[1, 2, 3]]) := by
  decide

/-- C8 (counterexample): the quad face `(0, 1, 2, 4294967295)` survives
validation against 3 vertices (its dangling `w` is never re-tested), is
not degenerate, and its fourth emitted index is `0`, not
`4294967295 + 1`: the `+ 1` wraps around in `unsigned int`. -/
theorem c8_counterexample_wraparound_token :
    validateQuad 3 faceWrapTok = faceWrapTok ∧
    writtenFaces true [faceWrapTok] = [faceWrapTok] ∧
    emitTokens true faceWrapTok = [1, 2, 3, 0] ∧
    (emitTokens true faceWrapTok).getD 3 0 ≠ faceWrapTok.w + 1 := by decide

/-- C8 (amended): every emitted index equals the corresponding internal
index plus one reduced modulo `2 ^ 32`, hence equals the internal index
plus one whenever that sum fits in an `unsigned int`. -/
theorem c8_amended_tokens_plus_one (quad : Bool) (f : Face) (i : Nat)
    (h : i < faceArity quad) :
    (emitTokens quad f).getD i 0 =
        ((faceElems quad f).getD i 0 + 1) % 2 ^ 32 ∧
      ((faceElems quad f).getD i 0 + 1 < 2 ^ 32 →
        (emitTokens quad f).getD i 0 = (faceElems quad f).getD i 0 + 1) := by
  have hi' : i < (faceElems quad f).length := by
    rw [faceElems_length]; exact h
  have hi'' : i < (emitTokens quad f).length := by
    simpa [emitTokens] using hi'
  have h1 : (emitTokens quad f).getD i 0 =
      ((faceElems quad f).getD i 0 + 1) % 2 ^ 32 := by
    rw [List.getD_eq_getElem _ _ hi'', List.getD_eq_getElem _ _ hi']
    simp [emitTokens]
  exact ⟨h1, fun h2 => by rw [h1, Nat.mod_eq_of_lt h2]⟩

theorem c8_amended_tokens_plus_one_witness :
    (emitTokens false { x := 6, y := 1, z := 2, w := 0 }).getD 0 0 =
        ((faceElems false { x := 6, y := 1, z := 2, w := 0 }).getD 0 0 + 1) %
          2 ^ 32 ∧
      ((faceElems false { x := 6, y := 1, z := 2, w := 0 }).getD 0 0 + 1 <
          2 ^ 32 →
        (emitTokens false { x := 6, y := 1, z := 2, w := 0 }).getD 0 0 =
          (faceElems false { x := 6, y := 1, z := 2, w := 0 }).getD 0 0 + 1) :=
  c8_amended_tokens_plus_one false { x := 6, y := 1, z := 2, w := 0 } 0
    (by decide)

/-- C10: every iteration of the face loop that passes the position guard
appends exactly one face, whether or not its element reads succeed — the
extracted count equals the guarded-iteration count — and a short element
read leaves the remaining elements of the appended face at their
zero-initialized values (shown for the 32-bit triangle and 16-bit
decodes failing on `y`). -/
theorem c10_one_face_per_guarded_iteration :
    (∀ (cfg : Config) (s : List Nat) (n rem pos : Nat),
        (faceLoop cfg s n rem pos).length = faceIterCount cfg s rem pos) ∧
    (∀ (s : List Nat) (pos : Nat), pos + 4 ≤ s.length → s.length < pos + 8 →
        (decodeFaceRecord .I32 false s pos).1 =
          { x := readU32 s pos, y := 0, z := 0, w := 0 }) ∧
    (∀ (s : List Nat) (quad : Bool) (pos : Nat), pos + 2 ≤ s.length →
        s.length < pos + 4 →
        (decodeFaceRecord .I16 quad s pos).1 =
          { x := readU16 s pos, y := 0, z := 0, w := 0 }) := by
  refine ⟨?_, ?_, ?_⟩
  · intro cfg s n rem
    induction rem with
    | zero => intro pos; rfl
    | succ m ih =>
      intro pos
      by_cases hp : cfg.faceEndOffset < pos
      · simp [faceLoop, faceIterCount, hp]
      · simp only [faceLoop, faceIterCount, if_neg hp, List.length_cons]
        cases hseek : strideSeek
            (decodeFaceRecord cfg.faceType cfg.faceQuad s pos).2
            cfg.faceStride with
        | none => simp
        | some p => simp [ih p, Nat.add_comm]
  · intro s pos h1 h2
    have hy : ¬ (pos + 4 + 4 ≤ s.length) := by omega
    simp [decodeFaceRecord, readElem, h1, hy, advancePos_of_le _ _ _ h1]
  · intro s quad pos h1 h2
    have hy : ¬ (pos + 2 + 2 ≤ s.length) := by omega
    simp [decodeFaceRecord, readElem, h1, hy, advancePos_of_le _ _ _ h1]

theorem c10_one_face_per_guarded_iteration_witness :
    ((faceLoop cfgStride streamStride 7 2 0).length =
        faceIterCount cfgStride streamStride 2 0) ∧
      (decodeFaceRecord .I32 false [1, 0, 0, 0, 9, 9] 0).1 =
        { x := readU32 [1, 0, 0, 0, 9, 9] 0, y := 0, z := 0, w := 0 } ∧
      (decodeFaceRecord .I16 false [7, 0, 9] 0).1 =
        { x := readU16 [7, 0, 9] 0, y := 0, z := 0, w := 0 } :=
  ⟨c10_one_face_per_guarded_iteration.1 cfgStride streamStride 7 2 0,
   c10_one_face_per_guarded_iteration.2.1 [1, 0, 0, 0, 9, 9] 0 (by decide)
     (by decide),
   c10_one_face_per_guarded_iteration.2.2 [7, 0, 9] false 0 (by decide)
     (by decide)⟩
